import Mathlib

/-!
Verification of the session-bootstrap skeleton of the volar.js common
language server (`packages/language-server/src/common/server.ts`).

The relevant source is shallowly embedded below: pure fragments of the
bootstrap (legend computation, root selection, the initialize result,
watcher-glob computation) become Lean functions, and the stateful parts
(the shutdown loop over project hosts, the handler-registration order,
the lifecycle-hook firing order) become explicit event traces or folds
over message lists.
-/

namespace Volar

/-! ## Semantic tokens legend (`getSemanticTokensLegend`, `standardSemanticTokensLegend`) -/

structure SemanticTokensLegend where
  tokenTypes : List String
  tokenModifiers : List String
deriving DecidableEq, Repr

/-- The constant `standardSemanticTokensLegend` at the bottom of `server.ts`. -/
def standardSemanticTokensLegend : SemanticTokensLegend :=
  { tokenTypes :=
      [ "namespace", "class", "enum", "interface", "struct", "typeParameter",
        "type", "parameter", "variable", "property", "enumMember", "decorator",
        "event", "function", "method", "macro", "label", "comment", "string",
        "keyword", "number", "regexp", "operator" ],
    tokenModifiers :=
      [ "declaration", "definition", "readonly", "static", "deprecated",
        "abstract", "async", "modification", "documentation", "defaultLibrary" ] }

/-- `getSemanticTokensLegend` in `server.ts`: if the initialization options carry
no `semanticTokensLegend`, the standard legend is used; otherwise the
contributed token types and modifiers are spread after the standard ones. -/
def getSemanticTokensLegend (optionsLegend : Option SemanticTokensLegend) :
    SemanticTokensLegend :=
  match optionsLegend with
  | none => standardSemanticTokensLegend
  | some contributed =>
    { tokenTypes := standardSemanticTokensLegend.tokenTypes ++ contributed.tokenTypes,
      tokenModifiers := standardSemanticTokensLegend.tokenModifiers ++ contributed.tokenModifiers }

/-! ## Project hosts and the shutdown handler (`onShutdown` in `server.ts`) -/

/-- One live project host at shutdown time.  `dispose()` is opaque external
behaviour: `disposeError = some e` models a `dispose` that throws `e`,
`disposeError = none` one that returns normally. -/
structure ProjectHost where
  id : Nat
  disposeError : Option String
deriving DecidableEq, Repr

/-- The result of calling `workspace.dispose()` on one host. -/
def disposeHost (h : ProjectHost) : Except String Unit :=
  match h.disposeError with
  | some e => Except.error e
  | none => Except.ok ()

/-- The `onShutdown` handler body: `for (const workspace of projects.workspaces)
{ (await workspace[1]).dispose(); }` — a plain sequential loop with no
`try`/`catch`.  Returns the ids whose `dispose` was invoked, paired with the
first uncaught error (the loop stops there), `none` when the loop completes. -/
def shutdownDisposeCalls : List ProjectHost → List Nat × Option String
  | [] => ([], none)
  | h :: rest =>
    match disposeHost h with
    | Except.error e => ([h.id], some e)
    | Except.ok _ =>
      let r := shutdownDisposeCalls rest
      (h.id :: r.1, r.2)

/-- Observable shutdown events: a `dispose` invocation on a host, and the
acknowledgement of the shutdown request (the handler promise resolving). -/
inductive ShutdownEvent where
  | disposeCall (id : Nat)
  | acknowledge
deriving DecidableEq, Repr

/-- The shutdown handler as an event trace: dispose calls happen in workspace
order up to (and including) the first host whose `dispose` throws; the
request is acknowledged only when the loop ran to completion without an
uncaught error. -/
def onShutdownTrace (hosts : List ProjectHost) : List ShutdownEvent :=
  let r := shutdownDisposeCalls hosts
  r.1.map ShutdownEvent.disposeCall ++
    (match r.2 with
     | none => [ShutdownEvent.acknowledge]
     | some _ => [])

/-! ## Initialize parameters and root selection (`onInitialize` in `server.ts`) -/

/-- A workspace root as built in `onInitialize`: workspace-folder uris and
`rootUri` go through `URI.parse`, `rootPath` goes through `URI.file`. -/
inductive URI where
  | parsed (s : String)
  | file (s : String)
deriving DecidableEq, Repr

/-- The fields of `vscode.InitializeParams` the bootstrap reads. -/
structure InitializeParams where
  /-- `capabilities.workspace?.workspaceFolders` (truthy or not). -/
  workspaceFoldersCapability : Bool
  /-- `workspaceFolders` (`null`/absent is `none`; an empty array is `some []`,
  which is truthy in JavaScript). -/
  workspaceFolders : Option (List String)
  /-- `rootUri` (`null` is `none`). -/
  rootUri : Option String
  /-- `rootPath` (`null`/absent is `none`). -/
  rootPath : Option String
  /-- `capabilities.workspace?.configuration` (truthy or not). -/
  configurationCapability : Bool
  /-- `capabilities.workspace?.didChangeWatchedFiles?.dynamicRegistration`. -/
  didChangeWatchedFilesDynamicRegistration : Bool
deriving DecidableEq, Repr

/-- JavaScript truthiness of an optional string (`null`/absent and `""` are
falsy). -/
def truthyString (s : Option String) : Bool :=
  match s with
  | none => false
  | some s => s ≠ ""

/-- The root-selection chain in `onInitialize` (`server.ts` lines 39–47):
workspace folders when the capability is truthy and `workspaceFolders` is
non-null, else `rootUri`, else `rootPath`, else the initial `roots = []`. -/
def computeRoots (p : InitializeParams) : List URI :=
  if p.workspaceFoldersCapability ∧ p.workspaceFolders.isSome then
    (p.workspaceFolders.getD []).map URI.parsed
  else if truthyString p.rootUri then
    [URI.parsed (p.rootUri.getD "")]
  else if truthyString p.rootPath then
    [URI.file (p.rootPath.getD "")]
  else
    []

/-! ## Workspace/Project Registry adds

`createWorkspaces` lives in `workspaces.ts`, which is not part of the
provided sources; only its call sites are.  Its `add` contract is modelled
from the spec. -/

/-- Modelled from the spec: `add(root)` of the Workspace/Project Registry
(`createWorkspaces` in `workspaces.ts`, absent from the sources) is
idempotent — "if the root already has a live Project Host, no-op; otherwise
registers the root".  The state is the list of registered roots; the
returned flag says whether this call actually registered the root. -/
def registryAdd (st : List URI) (r : URI) : List URI × Bool :=
  if r ∈ st then (st, false) else (st ++ [r], true)

/-- The loop `for (const root of roots) projects.add(root)` in
`createLanguageServiceHost`, run over registry state `st`; returns the final
state and the list of roots whose `add` call actually registered them
(one entry per effective registration, in call order). -/
def registryAddAll (st : List URI) : List URI → List URI × List URI
  | [] => (st, [])
  | r :: rest =>
    let a := registryAdd st r
    let rec' := registryAddAll a.1 rest
    (rec'.1, (if a.2 then [r] else []) ++ rec'.2)

/-! ## The initialize result (`onInitialize` in `server.ts`) -/

/-- `vscode.TextDocumentSyncKind` numeric values. -/
def TextDocumentSyncKindNone : Nat := 0

def TextDocumentSyncKindFull : Nat := 1

def TextDocumentSyncKindIncremental : Nat := 2

/-- The fields of the initialization options the bootstrap reads for the
claims at hand. -/
structure InitializationOptions where
  /-- `options.textDocumentSync`, a `TextDocumentSyncKind` number or absent. -/
  textDocumentSync : Option Nat
  /-- `options.semanticTokensLegend`, an additional legend fragment or absent. -/
  semanticTokensLegend : Option SemanticTokensLegend
  /-- `options.serverMode === ServerMode.Syntactic`. -/
  serverModeSyntactic : Bool
  /-- `options.disableFileWatcher` (truthy or not). -/
  disableFileWatcher : Bool
deriving DecidableEq, Repr

/-- `name`/`version` of `../package.json`. -/
structure PackageMetadata where
  name : String
  version : String
deriving DecidableEq, Repr

/-- The shape of the `vscode.InitializeResult` the handler returns. -/
structure InitializeResult where
  textDocumentSync : Nat
  serverInfo : Option PackageMetadata
deriving DecidableEq, Repr

/-- The `try { require('../package.json'); result.serverInfo = ... } catch { }`
block: a throwing `require` (modelled as `Except.error`) is swallowed and
leaves `serverInfo` unset. -/
def serverInfoOfLoad (load : Except String PackageMetadata) : Option PackageMetadata :=
  match load with
  | Except.ok m => some m
  | Except.error _ => none

/-- The `vscode.InitializeResult` built by `onInitialize`:
`textDocumentSync: (options.textDocumentSync as TextDocumentSyncKind) ??
TextDocumentSyncKind.Incremental`, and `serverInfo` from the guarded
`require` of the package metadata. -/
def buildInitializeResult (options : InitializationOptions)
    (load : Except String PackageMetadata) : InitializeResult :=
  { textDocumentSync := options.textDocumentSync.getD TextDocumentSyncKindIncremental,
    serverInfo := serverInfoOfLoad load }

/-- `configurationHost = initParams.capabilities.workspace?.configuration ?
createConfigurationHost(...) : undefined` — the host itself is opaque, only
its presence matters here, so it is modelled as `Option Unit`. -/
def mkConfigurationHost (p : InitializeParams) : Option Unit :=
  if p.configurationCapability then some () else none

/-- The session data `onInitialize` leaves behind, for the claims at hand. -/
structure SessionAfterInitialize where
  configurationHost : Option Unit
  result : InitializeResult
deriving DecidableEq, Repr

/-- The `onInitialize` handler: builds the result, creates the configuration
host iff the capability is advertised, and returns the result (the metadata
`require` never fails the handler). -/
def onInitializeHandler (p : InitializeParams) (options : InitializationOptions)
    (load : Except String PackageMetadata) : SessionAfterInitialize :=
  { configurationHost := mkConfigurationHost p,
    result := buildInitializeResult options load }

/-! ## The bootstrap event trace (`onInitialize` body order) -/

/-- Observable steps of the `onInitialize` handler body, in source order:
`setupCapabilities` (line 57), then the awaited `createLanguageServiceHost()`
(line 58) — which creates the workspaces, adds each initial root, registers
the feature modules and fires `plugin.onInitialized?.(...)` for each plugin
(lines 126–156) — then the `plugin.onInitialize?.(result)` loop
(lines 69–71), then the handler returns the result (line 73). -/
inductive BootstrapEvent where
  | setupCapabilitiesEv
  | createWorkspacesEv
  | addRootEv (r : URI)
  | registerFeaturesEv
  | pluginOnInitializedHook (pluginIdx : Nat)
  | pluginOnInitializeHook (pluginIdx : Nat)
  | returnInitializeResultEv
deriving DecidableEq, Repr

/-- The event trace of the awaited `createLanguageServiceHost()` call. -/
def createLanguageServiceHostTrace (roots : List URI) (numPlugins : Nat) :
    List BootstrapEvent :=
  [BootstrapEvent.createWorkspacesEv] ++
    roots.map BootstrapEvent.addRootEv ++
    [BootstrapEvent.registerFeaturesEv] ++
    (List.range numPlugins).map BootstrapEvent.pluginOnInitializedHook

/-- The event trace of the `onInitialize` handler from `setupCapabilities`
to the return of the initialize result. -/
def onInitializeTrace (roots : List URI) (numPlugins : Nat) :
    List BootstrapEvent :=
  [BootstrapEvent.setupCapabilitiesEv] ++
    createLanguageServiceHostTrace roots numPlugins ++
    (List.range numPlugins).map BootstrapEvent.pluginOnInitializeHook ++
    [BootstrapEvent.returnInitializeResultEv]

/-! ## File-watcher registration (`onInitialized` in `server.ts`, lines 93–108) -/

/-- The slice of a `LanguageServerPlugin` instance the bootstrap reads:
`plugin.extensions.fileWatcher` (an optional string list). -/
structure PluginInstance where
  fileWatcherExtensions : Option (List String)
deriving DecidableEq, Repr

/-- `const exts = plugins.map(plugin => plugin.extensions.fileWatcher ?? []).flat()`. -/
def watcherExts (plugins : List PluginInstance) : List String :=
  (plugins.map (fun p => p.fileWatcherExtensions.getD [])).flatten

/-- The glob pattern `**/*.{exts.join(',')}` sent in the
`DidChangeWatchedFilesNotification` registration. -/
def watcherGlobPattern (exts : List String) : String :=
  "**/*.\x7b" ++ String.intercalate "," exts ++ "\x7d"

/-- The file-watcher registration performed by the `onInitialized` handler:
`some glob` when a registration is sent to the client, `none` otherwise.
Registration requires a non-syntactic server mode, file watching not
disabled, the client's dynamic-registration capability, and a non-empty
extension list. -/
def fileWatcherRegistration (options : InitializationOptions)
    (p : InitializeParams) (plugins : List PluginInstance) : Option String :=
  if ¬options.serverModeSyntactic ∧ ¬options.disableFileWatcher ∧
      p.didChangeWatchedFilesDynamicRegistration ∧ watcherExts plugins ≠ [] then
    some (watcherGlobPattern (watcherExts plugins))
  else
    none

/-! ## Workspace-folder change notifications (`onInitialized`, lines 75–91)

The `workspace.onDidChangeWorkspaceFolders` listener — which turns each
added folder into `projects.add(URI.parse(folder.uri))` and each removed
folder into `projects.remove(URI.parse(folder.uri))` — is registered only
inside the `onInitialized` handler, and only when the client advertises the
workspace-folders capability.  The session is modelled as a fold over the
inbound notification stream that tracks whether the listener is live. -/

/-- A registry mutation issued by the folder-change listener. -/
inductive RegistryOp where
  | addCall (r : URI)
  | removeCall (r : URI)
deriving DecidableEq, Repr

/-- Inbound notifications relevant to the folder-change flow. -/
inductive InboundMsg where
  | initializedNotification
  | didChangeWorkspaceFolders (added removed : List String)
deriving DecidableEq, Repr

/-- The registry mutations one folder-change event produces once the
listener is live (`e.added` then `e.removed`, each through `URI.parse`). -/
def folderChangeOps (added removed : List String) : List RegistryOp :=
  added.map (fun f => RegistryOp.addCall (URI.parsed f)) ++
    removed.map (fun f => RegistryOp.removeCall (URI.parsed f))

/-- Processing one inbound notification: `initialized` registers the
folder-change listener when the capability is advertised; a folder-change
notification produces registry mutations only if the listener is live.
Returns the new listener state and the registry mutations issued. -/
def processMsg (workspaceFoldersCapability : Bool) (listenerActive : Bool) :
    InboundMsg → Bool × List RegistryOp
  | InboundMsg.initializedNotification =>
    (listenerActive || workspaceFoldersCapability, [])
  | InboundMsg.didChangeWorkspaceFolders added removed =>
    (listenerActive, if listenerActive then folderChangeOps added removed else [])

/-- The registry mutations issued over an inbound notification stream,
starting from listener state `listenerActive`. -/
def sessionOps (workspaceFoldersCapability : Bool) (listenerActive : Bool) :
    List InboundMsg → List RegistryOp
  | [] => []
  | m :: rest =>
    let s := processMsg workspaceFoldersCapability listenerActive m
    s.2 ++ sessionOps workspaceFoldersCapability s.1 rest

/-- A fresh session: no listener is live before `initialized` is processed. -/
def runSession (workspaceFoldersCapability : Bool) (msgs : List InboundMsg) :
    List RegistryOp :=
  sessionOps workspaceFoldersCapability false msgs

/-! ## Helper lemmas about the registry and the session fold -/

lemma registryAddAll_count (l : List URI) : ∀ (st : List URI) (r : URI),
    (registryAddAll st l).2.count r = if r ∈ l ∧ r ∉ st then 1 else 0 := by
  induction l with
  | nil => intro st r; simp [registryAddAll]
  | cons a rest ih =>
    intro st r
    by_cases hast : a ∈ st
    · simp only [registryAddAll, registryAdd, if_pos hast, Bool.false_eq_true, if_false,
        List.nil_append]
      rw [ih st r]
      by_cases hra : r = a
      · subst hra
        simp [hast]
      · simp [hra, List.mem_cons]
    · simp only [registryAddAll, registryAdd, if_neg hast]
      rw [List.count_append, ih (st ++ [a]) r]
      by_cases hra : r = a
      · subst hra
        simp [hast]
      · simp [hra, List.mem_cons, List.mem_append]

lemma sessionOps_skip_before_initialized (cap : Bool) (rest : List InboundMsg) :
    ∀ msgs : List InboundMsg, InboundMsg.initializedNotification ∉ msgs →
      sessionOps cap false (msgs ++ rest) = sessionOps cap false rest := by
  intro msgs
  induction msgs with
  | nil => intro _; rfl
  | cons m ms ih =>
    intro h
    cases m with
    | initializedNotification => exact absurd (by simp) h
    | didChangeWorkspaceFolders a r =>
      have h' : InboundMsg.initializedNotification ∉ ms := fun hx => h (by simp [hx])
      simpa [sessionOps, processMsg] using ih h'

/-! ## Helper lemmas about the shutdown loop -/

lemma shutdownDisposeCalls_all_ok (hosts : List ProjectHost) :
    (∀ x ∈ hosts, x.disposeError = none) →
    shutdownDisposeCalls hosts = (hosts.map ProjectHost.id, none) := by
  induction hosts with
  | nil => intro _; rfl
  | cons a rest ih =>
    intro h
    have ha : a.disposeError = none := h a (by simp)
    have hrest := ih (fun x hx => h x (by simp [hx]))
    simp [shutdownDisposeCalls, disposeHost, ha, hrest]

lemma shutdownDisposeCalls_snd_none (hosts : List ProjectHost) :
    (shutdownDisposeCalls hosts).2 = none →
    (shutdownDisposeCalls hosts).1 = hosts.map ProjectHost.id := by
  induction hosts with
  | nil => intro _; rfl
  | cons a rest ih =>
    intro h
    cases hda : a.disposeError with
    | some e => simp [shutdownDisposeCalls, disposeHost, hda] at h
    | none =>
      simp [shutdownDisposeCalls, disposeHost, hda] at h ⊢
      exact ih h

lemma acknowledge_mem_onShutdownTrace (hosts : List ProjectHost) :
    ShutdownEvent.acknowledge ∈ onShutdownTrace hosts ↔
      (shutdownDisposeCalls hosts).2 = none := by
  unfold onShutdownTrace
  cases hsnd : (shutdownDisposeCalls hosts).2 with
  | none => simp [hsnd]
  | some e => simp [hsnd]

lemma shutdownDisposeCalls_append_error (pre : List ProjectHost) (h : ProjectHost)
    (post : List ProjectHost) (e : String) (he : h.disposeError = some e) :
    (∀ x ∈ pre, x.disposeError = none) →
    shutdownDisposeCalls (pre ++ h :: post) =
      (pre.map ProjectHost.id ++ [h.id], some e) := by
  induction pre with
  | nil => intro _; simp [shutdownDisposeCalls, disposeHost, he]
  | cons a rest ih =>
    intro hpre
    have ha : a.disposeError = none := hpre a (by simp)
    have hrest := ih (fun x hx => hpre x (by simp [hx]))
    simp [shutdownDisposeCalls, disposeHost, ha, hrest]

/-! ## Claim theorems -/

/-- C1: the negotiated semantic-token legend is the standard legend's
`tokenTypes` (and `tokenModifiers`) list with every contributed additional
token type (and modifier) appended after it, in contribution order, without
de-duplication — counts add up, so a contribution equal to an existing
entry yields a duplicate legend entry; with no contribution the standard
legend is used unchanged. -/
theorem getSemanticTokensLegend_appends_without_dedup (c : SemanticTokensLegend) :
    (getSemanticTokensLegend (some c)).tokenTypes =
      standardSemanticTokensLegend.tokenTypes ++ c.tokenTypes ∧
    (getSemanticTokensLegend (some c)).tokenModifiers =
      standardSemanticTokensLegend.tokenModifiers ++ c.tokenModifiers ∧
    (∀ t : String, (getSemanticTokensLegend (some c)).tokenTypes.count t =
      standardSemanticTokensLegend.tokenTypes.count t + c.tokenTypes.count t) ∧
    (∀ t : String, (getSemanticTokensLegend (some c)).tokenModifiers.count t =
      standardSemanticTokensLegend.tokenModifiers.count t + c.tokenModifiers.count t) ∧
    getSemanticTokensLegend none = standardSemanticTokensLegend := by
  refine ⟨rfl, rfl, ?_, ?_, rfl⟩
  · intro t
    simp [getSemanticTokensLegend, List.count_append]
  · intro t
    simp [getSemanticTokensLegend, List.count_append]

/-- C2 counterexample: with two live hosts whose first `dispose` throws,
the error is not caught — the loop stops, the second host is never
disposed, and the shutdown request is not acknowledged. -/
theorem shutdown_error_not_caught_cex :
    (shutdownDisposeCalls [⟨0, some "disposal failed"⟩, ⟨1, none⟩]).2 =
      some "disposal failed" ∧
    (shutdownDisposeCalls [⟨0, some "disposal failed"⟩, ⟨1, none⟩]).1 = [0] ∧
    ShutdownEvent.disposeCall 1 ∉
      onShutdownTrace [⟨0, some "disposal failed"⟩, ⟨1, none⟩] ∧
    ShutdownEvent.acknowledge ∉
      onShutdownTrace [⟨0, some "disposal failed"⟩, ⟨1, none⟩] := by
  decide

/-- C2 (amended): during shutdown, a host whose `dispose` throws stops the
disposal loop at that host — the error is not caught, the hosts after it
are not disposed, and the shutdown request is not acknowledged. -/
theorem shutdown_stops_at_first_error (pre : List ProjectHost) (h : ProjectHost)
    (post : List ProjectHost) (e : String)
    (hpre : ∀ x ∈ pre, x.disposeError = none) (he : h.disposeError = some e) :
    shutdownDisposeCalls (pre ++ h :: post) =
      (pre.map ProjectHost.id ++ [h.id], some e) ∧
    ShutdownEvent.acknowledge ∉ onShutdownTrace (pre ++ h :: post) := by
  have main := shutdownDisposeCalls_append_error pre h post e he hpre
  refine ⟨main, ?_⟩
  intro hmem
  have hsnd := (acknowledge_mem_onShutdownTrace _).1 hmem
  rw [main] at hsnd
  cases hsnd

/-- Witness for `shutdown_stops_at_first_error` at a concrete host list. -/
theorem shutdown_stops_at_first_error_witness :
    shutdownDisposeCalls [⟨7, none⟩, ⟨8, some "boom"⟩, ⟨9, none⟩] =
      ([7, 8], some "boom") ∧
    ShutdownEvent.acknowledge ∉
      onShutdownTrace [⟨7, none⟩, ⟨8, some "boom"⟩, ⟨9, none⟩] := by
  have := shutdown_stops_at_first_error [⟨7, none⟩] ⟨8, some "boom"⟩ [⟨9, none⟩]
    "boom" (by intro x hx; simp at hx; simp [hx]) rfl
  simpa using this

/-- C5: whenever the shutdown request is acknowledged, `dispose` was invoked
on every live project host and all these disposals completed before the
acknowledgement — the trace is exactly the dispose calls, in workspace
order, followed by the acknowledgement. -/
theorem shutdown_ack_after_all_disposals (hosts : List ProjectHost)
    (hack : ShutdownEvent.acknowledge ∈ onShutdownTrace hosts) :
    onShutdownTrace hosts =
      hosts.map (fun h => ShutdownEvent.disposeCall h.id) ++
        [ShutdownEvent.acknowledge] := by
  have hsnd := (acknowledge_mem_onShutdownTrace hosts).1 hack
  have hfst := shutdownDisposeCalls_snd_none hosts hsnd
  simp only [onShutdownTrace, hsnd, hfst, List.map_map]
  rfl

/-- Witness for `shutdown_ack_after_all_disposals` at a concrete host list. -/
theorem shutdown_ack_after_all_disposals_witness :
    onShutdownTrace [⟨0, none⟩, ⟨1, none⟩] =
      [ShutdownEvent.disposeCall 0, ShutdownEvent.disposeCall 1,
        ShutdownEvent.acknowledge] := by
  have := shutdown_ack_after_all_disposals [⟨0, none⟩, ⟨1, none⟩] (by decide)
  simpa using this

/-- C3 counterexample: two plugins each contributing the file extension
`ts` yield the extension list `["ts", "ts"]` — not de-duplicated — and the
registration sent to the client (in a session where registration occurs)
carries the glob `**/*.\x7bts,ts\x7d` rather than the de-duplicated
`**/*.\x7bts\x7d`. -/
theorem fileWatcher_no_dedup_cex :
    watcherExts [⟨some ["ts"]⟩, ⟨some ["ts"]⟩] = ["ts", "ts"] ∧
    ¬ (watcherExts [⟨some ["ts"]⟩, ⟨some ["ts"]⟩]).Nodup ∧
    fileWatcherRegistration ⟨none, none, false, false⟩
        ⟨true, none, none, none, false, true⟩ [⟨some ["ts"]⟩, ⟨some ["ts"]⟩] =
      some "**/*.\x7bts,ts\x7d" ∧
    fileWatcherRegistration ⟨none, none, false, false⟩
        ⟨true, none, none, none, false, true⟩ [⟨some ["ts"]⟩, ⟨some ["ts"]⟩] ≠
      some "**/*.\x7bts\x7d" := by
  refine ⟨rfl, by decide, ?_, ?_⟩
  · rfl
  · decide

/-- C3 (amended): the registered file-watcher glob covers exactly the
concatenation of every registered plugin's contributed file extensions, in
plugin-registration order, without de-duplication and with no base set
added — the multiplicity of each extension in the glob's list is the sum of
its multiplicities across plugin contributions — and registration happens
only with a non-empty extension list. -/
theorem fileWatcher_glob_concat (options : InitializationOptions)
    (p : InitializeParams) (plugins : List PluginInstance) (g : String)
    (hreg : fileWatcherRegistration options p plugins = some g) :
    g = watcherGlobPattern (watcherExts plugins) ∧
    watcherExts plugins ≠ [] ∧
    ∀ e : String, (watcherExts plugins).count e =
      (plugins.map (fun pl => (pl.fileWatcherExtensions.getD []).count e)).sum := by
  unfold fileWatcherRegistration at hreg
  by_cases hc : ¬options.serverModeSyntactic ∧ ¬options.disableFileWatcher ∧
      p.didChangeWatchedFilesDynamicRegistration ∧ watcherExts plugins ≠ []
  · rw [if_pos hc] at hreg
    refine ⟨(Option.some_inj.mp hreg).symm, hc.2.2.2, ?_⟩
    intro e
    unfold watcherExts
    rw [List.count_flatten, List.map_map]
    rfl
  · rw [if_neg hc] at hreg
    cases hreg

/-- Witness for `fileWatcher_glob_concat` at a concrete session. -/
theorem fileWatcher_glob_concat_witness :
    "**/*.\x7bvue,ts,vue\x7d" =
      watcherGlobPattern (watcherExts [⟨some ["vue", "ts"]⟩, ⟨none⟩, ⟨some ["vue"]⟩]) ∧
    watcherExts [⟨some ["vue", "ts"]⟩, ⟨none⟩, ⟨some ["vue"]⟩] ≠ [] ∧
    ∀ e : String, (watcherExts [⟨some ["vue", "ts"]⟩, ⟨none⟩, ⟨some ["vue"]⟩]).count e =
      (([⟨some ["vue", "ts"]⟩, ⟨none⟩, ⟨some ["vue"]⟩] : List PluginInstance).map
        (fun pl => (pl.fileWatcherExtensions.getD []).count e)).sum := by
  exact fileWatcher_glob_concat ⟨none, none, false, false⟩
    ⟨true, none, none, none, false, true⟩ [⟨some ["vue", "ts"]⟩, ⟨none⟩, ⟨some ["vue"]⟩]
    "**/*.\x7bvue,ts,vue\x7d" rfl

/-- C4 counterexample: in a session with no roots and one registered
plugin, both lifecycle hooks fire exactly once, but the hook that fires
after the full session is constructed (`plugin.onInitialized`, inside the
awaited `createLanguageServiceHost()`) comes strictly *before* the hook
that fires before the session reports itself ready (`plugin.onInitialize`,
in the loop just before the handler returns) — so the claimed order is
violated. -/
theorem hook_order_cex :
    (onInitializeTrace [] 1).count (BootstrapEvent.pluginOnInitializeHook 0) = 1 ∧
    (onInitializeTrace [] 1).count (BootstrapEvent.pluginOnInitializedHook 0) = 1 ∧
    (onInitializeTrace [] 1).indexOf (BootstrapEvent.pluginOnInitializedHook 0) <
      (onInitializeTrace [] 1).indexOf (BootstrapEvent.pluginOnInitializeHook 0) := by
  decide

/-- C4 (amended): for every session and every registered plugin, the two
lifecycle hooks each fire exactly once, in the *opposite* of the claimed
order: the hook fired after the full session (including the Project
Registry) is constructed occurs strictly before the hook fired after
capabilities are computed and before the handler returns its result. -/
theorem hook_order_reversed (roots : List URI) (n i : Nat) (hi : i < n) :
    List.Sublist
      [BootstrapEvent.pluginOnInitializedHook i, BootstrapEvent.pluginOnInitializeHook i]
      (onInitializeTrace roots n) ∧
    (onInitializeTrace roots n).count (BootstrapEvent.pluginOnInitializedHook i) = 1 ∧
    (onInitializeTrace roots n).count (BootstrapEvent.pluginOnInitializeHook i) = 1 := by
  have him : i ∈ List.range n := List.mem_range.mpr hi
  refine ⟨?_, ?_, ?_⟩
  · have h1 : List.Sublist [BootstrapEvent.pluginOnInitializedHook i]
        ((List.range n).map BootstrapEvent.pluginOnInitializedHook) :=
      List.singleton_sublist.mpr (List.mem_map_of_mem _ him)
    have h2 : List.Sublist [BootstrapEvent.pluginOnInitializeHook i]
        ((List.range n).map BootstrapEvent.pluginOnInitializeHook) :=
      List.singleton_sublist.mpr (List.mem_map_of_mem _ him)
    have h2' : List.Sublist [BootstrapEvent.pluginOnInitializeHook i]
        (((List.range n).map BootstrapEvent.pluginOnInitializeHook) ++
          [BootstrapEvent.returnInitializeResultEv]) :=
      h2.trans (List.sublist_append_left _ _)
    have hmid : List.Sublist
        [BootstrapEvent.pluginOnInitializedHook i, BootstrapEvent.pluginOnInitializeHook i]
        (((List.range n).map BootstrapEvent.pluginOnInitializedHook) ++
          (((List.range n).map BootstrapEvent.pluginOnInitializeHook) ++
            [BootstrapEvent.returnInitializeResultEv])) :=
      List.Sublist.append h1 h2'
    have hmid2 := (hmid.cons BootstrapEvent.registerFeaturesEv).trans
      (List.sublist_append_right (roots.map BootstrapEvent.addRootEv) _)
    simp only [onInitializeTrace, createLanguageServiceHostTrace, List.append_assoc,
      List.cons_append, List.nil_append]
    exact (hmid2.cons _).cons _
  · have hz1 : (roots.map BootstrapEvent.addRootEv).count
        (BootstrapEvent.pluginOnInitializedHook i) = 0 := by
      rw [List.count_eq_zero]; simp
    have hz2 : (((List.range n).map BootstrapEvent.pluginOnInitializeHook)).count
        (BootstrapEvent.pluginOnInitializedHook i) = 0 := by
      rw [List.count_eq_zero]; simp
    have h1 : (((List.range n).map BootstrapEvent.pluginOnInitializedHook)).count
        (BootstrapEvent.pluginOnInitializedHook i) = 1 := by
      rw [List.count_map_of_injective _ BootstrapEvent.pluginOnInitializedHook
        (fun a b h => by cases h; rfl) i]
      exact List.count_eq_one_of_mem (List.nodup_range n) him
    simp [onInitializeTrace, createLanguageServiceHostTrace, List.count_append,
      hz1, hz2, h1]
  · have hz1 : (roots.map BootstrapEvent.addRootEv).count
        (BootstrapEvent.pluginOnInitializeHook i) = 0 := by
      rw [List.count_eq_zero]; simp
    have hz2 : (((List.range n).map BootstrapEvent.pluginOnInitializedHook)).count
        (BootstrapEvent.pluginOnInitializeHook i) = 0 := by
      rw [List.count_eq_zero]; simp
    have h1 : (((List.range n).map BootstrapEvent.pluginOnInitializeHook)).count
        (BootstrapEvent.pluginOnInitializeHook i) = 1 := by
      rw [List.count_map_of_injective _ BootstrapEvent.pluginOnInitializeHook
        (fun a b h => by cases h; rfl) i]
      exact List.count_eq_one_of_mem (List.nodup_range n) him
    simp [onInitializeTrace, createLanguageServiceHostTrace, List.count_append,
      hz1, hz2, h1]

/-- Witness for `hook_order_reversed` at a concrete session. -/
theorem hook_order_reversed_witness :
    List.Sublist
      [BootstrapEvent.pluginOnInitializedHook 0, BootstrapEvent.pluginOnInitializeHook 0]
      (onInitializeTrace [URI.parsed "file:///root"] 2) ∧
    (onInitializeTrace [URI.parsed "file:///root"] 2).count
      (BootstrapEvent.pluginOnInitializedHook 0) = 1 ∧
    (onInitializeTrace [URI.parsed "file:///root"] 2).count
      (BootstrapEvent.pluginOnInitializeHook 0) = 1 :=
  hook_order_reversed [URI.parsed "file:///root"] 2 0 (by decide)

/-- C6: the initial root set is the handshake's workspace folders when the
workspace-folders capability is advertised and a folder array is supplied,
otherwise the single `rootUri`, otherwise the single `rootPath`, otherwise
empty; and each root in that set is effectively registered in the Project
Registry exactly once (the idempotent `add` collapses duplicate calls). -/
theorem initial_roots_registered_once (p : InitializeParams) :
    (∀ fs, p.workspaceFoldersCapability = true → p.workspaceFolders = some fs →
      computeRoots p = fs.map URI.parsed) ∧
    (∀ u, (p.workspaceFoldersCapability = false ∨ p.workspaceFolders = none) →
      p.rootUri = some u → u ≠ "" → computeRoots p = [URI.parsed u]) ∧
    (∀ pa, (p.workspaceFoldersCapability = false ∨ p.workspaceFolders = none) →
      (p.rootUri = none ∨ p.rootUri = some "") →
      p.rootPath = some pa → pa ≠ "" → computeRoots p = [URI.file pa]) ∧
    ((p.workspaceFoldersCapability = false ∨ p.workspaceFolders = none) →
      (p.rootUri = none ∨ p.rootUri = some "") →
      (p.rootPath = none ∨ p.rootPath = some "") → computeRoots p = []) ∧
    (∀ r : URI, (registryAddAll [] (computeRoots p)).2.count r =
      if r ∈ computeRoots p then 1 else 0) := by
  refine ⟨?_, ?_, ?_, ?_, ?_⟩
  · intro fs hcap hfs
    simp [computeRoots, hcap, hfs]
  · intro u hdisj huri hne
    have hfold : ¬(p.workspaceFoldersCapability ∧ p.workspaceFolders.isSome) := by
      rcases hdisj with h | h <;> simp [h]
    simp [computeRoots, hfold, truthyString, huri, hne]
  · intro pa hdisj huri hpath hne
    have hfold : ¬(p.workspaceFoldersCapability ∧ p.workspaceFolders.isSome) := by
      rcases hdisj with h | h <;> simp [h]
    have huri' : truthyString p.rootUri = false := by
      rcases huri with h | h <;> simp [truthyString, h]
    have hpath' : truthyString p.rootPath = true := by
      simp [truthyString, hpath, hne]
    simp only [computeRoots, hfold, huri', hpath', if_true, if_false, Bool.false_eq_true]
    simp [hpath]
  · intro hdisj huri hpath
    have hfold : ¬(p.workspaceFoldersCapability ∧ p.workspaceFolders.isSome) := by
      rcases hdisj with h | h <;> simp [h]
    have huri' : truthyString p.rootUri = false := by
      rcases huri with h | h <;> simp [truthyString, h]
    have hpath' : truthyString p.rootPath = false := by
      rcases hpath with h | h <;> simp [truthyString, h]
    simp [computeRoots, hfold, huri', hpath']
  · intro r
    rw [registryAddAll_count (computeRoots p) [] r]
    simp

/-- Witness for `initial_roots_registered_once` at a concrete handshake. -/
theorem initial_roots_registered_once_witness :
    computeRoots ⟨true, some ["file:///a", "file:///b"], none, none, true, true⟩ =
      [URI.parsed "file:///a", URI.parsed "file:///b"] ∧
    (registryAddAll []
        (computeRoots ⟨true, some ["file:///a", "file:///b"], none, none, true, true⟩)).2.count
        (URI.parsed "file:///a") =
      if URI.parsed "file:///a" ∈
          computeRoots ⟨true, some ["file:///a", "file:///b"], none, none, true, true⟩ then
        1
      else 0 :=
  ⟨(initial_roots_registered_once _).1 ["file:///a", "file:///b"] rfl rfl,
    (initial_roots_registered_once _).2.2.2.2 (URI.parsed "file:///a")⟩

/-- C7: workspace-folder change notifications produce no registry mutation
before the `initialized` notification is processed (the listener is only
registered then); once initialized (with the workspace-folders capability),
a folder-change notification issues exactly one registry `add` per added
folder and exactly one registry `remove` per removed folder. -/
theorem folder_changes_only_when_ready (cap : Bool) (msgs : List InboundMsg)
    (hno : InboundMsg.initializedNotification ∉ msgs)
    (added removed : List String) :
    runSession cap msgs = [] ∧
    runSession true (msgs ++ [InboundMsg.initializedNotification,
      InboundMsg.didChangeWorkspaceFolders added removed]) =
      folderChangeOps added removed ∧
    (∀ f : String, (folderChangeOps added removed).count
      (RegistryOp.addCall (URI.parsed f)) = added.count f) ∧
    (∀ f : String, (folderChangeOps added removed).count
      (RegistryOp.removeCall (URI.parsed f)) = removed.count f) := by
  refine ⟨?_, ?_, ?_, ?_⟩
  · have h := sessionOps_skip_before_initialized cap [] msgs hno
    simpa [runSession] using h
  · have h := sessionOps_skip_before_initialized true
      [InboundMsg.initializedNotification,
        InboundMsg.didChangeWorkspaceFolders added removed] msgs hno
    rw [runSession, h]
    simp [sessionOps, processMsg]
  · intro f
    have hinj : Function.Injective (fun s => RegistryOp.addCall (URI.parsed s)) := by
      intro a b h
      simpa using h
    have h1 := List.count_map_of_injective added _ hinj f
    have h0 : (removed.map (fun s => RegistryOp.removeCall (URI.parsed s))).count
        (RegistryOp.addCall (URI.parsed f)) = 0 := by
      rw [List.count_eq_zero]
      simp
    simp [folderChangeOps, List.count_append, h1, h0]
  · intro f
    have hinj : Function.Injective (fun s => RegistryOp.removeCall (URI.parsed s)) := by
      intro a b h
      simpa using h
    have h1 := List.count_map_of_injective removed _ hinj f
    have h0 : (added.map (fun s => RegistryOp.addCall (URI.parsed s))).count
        (RegistryOp.removeCall (URI.parsed f)) = 0 := by
      rw [List.count_eq_zero]
      simp
    simp [folderChangeOps, List.count_append, h1, h0]

/-- Witness for `folder_changes_only_when_ready` at a concrete session. -/
theorem folder_changes_only_when_ready_witness :
    runSession true [InboundMsg.didChangeWorkspaceFolders ["file:///x"] []] = [] ∧
    runSession true ([InboundMsg.didChangeWorkspaceFolders ["file:///x"] []] ++
      [InboundMsg.initializedNotification,
        InboundMsg.didChangeWorkspaceFolders ["file:///a"] ["file:///b"]]) =
      folderChangeOps ["file:///a"] ["file:///b"] ∧
    (folderChangeOps ["file:///a"] ["file:///b"]).count
      (RegistryOp.addCall (URI.parsed "file:///a")) = 1 ∧
    (folderChangeOps ["file:///a"] ["file:///b"]).count
      (RegistryOp.removeCall (URI.parsed "file:///b")) = 1 := by
  have h := folder_changes_only_when_ready true
    [InboundMsg.didChangeWorkspaceFolders ["file:///x"] []] (by decide)
    ["file:///a"] ["file:///b"]
  refine ⟨h.1, h.2.1, ?_, ?_⟩
  · rw [h.2.2.1 "file:///a"]
    decide
  · rw [h.2.2.2 "file:///b"]
    decide

/-- C8: a configuration host is created if and only if the handshake
capabilities advertise workspace configuration support, and the initialize
result the handler returns does not depend on the handshake capabilities at
all — so with no configuration host the handshake still succeeds
identically. -/
theorem configurationHost_iff_capability (p : InitializeParams)
    (options : InitializationOptions) (load : Except String PackageMetadata) :
    ((onInitializeHandler p options load).configurationHost.isSome =
      p.configurationCapability) ∧
    ∀ q : InitializeParams, (onInitializeHandler p options load).result =
      (onInitializeHandler q options load).result := by
  constructor
  · cases hc : p.configurationCapability <;>
      simp [onInitializeHandler, mkConfigurationHost, hc]
  · intro q
    rfl

/-- C9: with no `textDocumentSync` in the initialization options the
negotiated sync mode is `Incremental`; a supplied mode is returned
unchanged (including `None = 0`, which JavaScript's `??` preserves). -/
theorem textDocumentSync_negotiation (p : InitializeParams)
    (options : InitializationOptions) (load : Except String PackageMetadata) :
    (options.textDocumentSync = none →
      (onInitializeHandler p options load).result.textDocumentSync =
        TextDocumentSyncKindIncremental) ∧
    (∀ m : Nat, options.textDocumentSync = some m →
      (onInitializeHandler p options load).result.textDocumentSync = m) := by
  constructor
  · intro h
    simp [onInitializeHandler, buildInitializeResult, h]
  · intro m h
    simp [onInitializeHandler, buildInitializeResult, h]

/-- Witness for `textDocumentSync_negotiation` at concrete options. -/
theorem textDocumentSync_negotiation_witness :
    (onInitializeHandler ⟨true, none, none, none, true, true⟩ ⟨none, none, false, false⟩
      (Except.ok ⟨"volar", "1.0.0"⟩)).result.textDocumentSync =
        TextDocumentSyncKindIncremental ∧
    (onInitializeHandler ⟨true, none, none, none, true, true⟩ ⟨some 1, none, false, false⟩
      (Except.ok ⟨"volar", "1.0.0"⟩)).result.textDocumentSync = 1 :=
  ⟨(textDocumentSync_negotiation _ _ _).1 rfl,
    (textDocumentSync_negotiation _ _ _).2 1 rfl⟩

/-- C10: a throwing package-metadata load is swallowed — the initialize
result is still produced, with `serverInfo` omitted and the rest of the
response unchanged; a successful load fills `serverInfo` in. -/
theorem package_metadata_failure_swallowed (p : InitializeParams)
    (options : InitializationOptions) (e : String) (m : PackageMetadata) :
    (onInitializeHandler p options (Except.error e)).result.serverInfo = none ∧
    (onInitializeHandler p options (Except.ok m)).result.serverInfo = some m ∧
    (onInitializeHandler p options (Except.error e)).result.textDocumentSync =
      (onInitializeHandler p options (Except.ok m)).result.textDocumentSync :=
  ⟨rfl, rfl, rfl⟩

end Volar
